import Mathlib

/-!
Shallow embedding of the mqttui coordination core (src/main.go, src/ui.go,
src/mqtt.go): the UI state, its key-driven transitions, the topic registry,
and the subscription-change diffing performed by App.Update, together with
proofs of the specification's testable properties.

Go `int` fields are modelled as `Int`; Go `map[string]bool` is modelled as an
association list with first-match lookup (absent keys read as `false`, the Go
zero value) and first-match update.
-/

namespace Mqttui

/-- Which pane is active (src/ui.go, `Pane` with constants `TopicsPane`,
`MessagesPane`). -/
inductive Pane where
  | TopicsPane
  | MessagesPane
deriving DecidableEq

/-- An MQTT message as buffered by the UI (src/ui.go, `Message`).
The timestamp is opaque to every operation modelled here, so it is a `Nat`. -/
structure Message where
  topic : String
  payload : String
  timestamp : Nat
deriving DecidableEq

/-- Lookup in a Go `map[string]bool`: the value stored for `t`, or `false`
(the zero value) when `t` is absent. -/
def mapGet (m : List (String × Bool)) (t : String) : Bool :=
  match m with
  | [] => false
  | p :: rest => if p.1 = t then p.2 else mapGet rest t

/-- Assignment `m[t] = b` in a Go `map[string]bool`: replace the entry for
`t`, or append one if absent. -/
def mapSet (m : List (String × Bool)) (t : String) (b : Bool) : List (String × Bool) :=
  match m with
  | [] => [(t, b)]
  | p :: rest => if p.1 = t then (t, b) :: rest else p :: mapSet rest t b

/-- A Go map has at most one entry per key; this predicate states that the
association list has pairwise-distinct keys. -/
def keysNodup (m : List (String × Bool)) : Prop :=
  (m.map Prod.fst).Nodup

instance (m : List (String × Bool)) : Decidable (keysNodup m) := by
  unfold keysNodup; infer_instance

/-- The UI state (src/ui.go, `UI`), minus the purely presentational `styles`
field, which no modelled operation reads or writes. -/
structure UI where
  topics : List String
  selectedTopic : Int
  topicScroll : Int
  subscribedTopics : List (String × Bool)
  messages : List Message
  messageScroll : Int
  width : Int
  height : Int
  activePane : Pane
  error : String
deriving DecidableEq

/-- src/ui.go `NewUI`: empty catalog, no subscriptions, no messages, topics
pane focused; the remaining fields start at their Go zero values. -/
def NewUI : UI :=
  { topics := []
    selectedTopic := 0
    topicScroll := 0
    subscribedTopics := []
    messages := []
    messageScroll := 0
    width := 0
    height := 0
    activePane := Pane.TopicsPane
    error := "" }

/-- src/ui.go `(*UI).handleKeyPress`: the key-string switch.  The branches
mirror the Go switch arms; any other key leaves the state unchanged. -/
def handleKeyPress (ui : UI) (key : String) : UI :=
  if key = "tab" then
    if ui.activePane = Pane.TopicsPane then
      { ui with activePane := Pane.MessagesPane }
    else
      { ui with activePane := Pane.TopicsPane }
  else if key = "up" ∨ key = "k" then
    if ui.activePane = Pane.TopicsPane then
      if ui.selectedTopic > 0 then { ui with selectedTopic := ui.selectedTopic - 1 } else ui
    else
      if ui.messageScroll > 0 then { ui with messageScroll := ui.messageScroll - 1 } else ui
  else if key = "down" ∨ key = "j" then
    if ui.activePane = Pane.TopicsPane then
      if ui.selectedTopic < (ui.topics.length : Int) - 1 then
        { ui with selectedTopic := ui.selectedTopic + 1 }
      else ui
    else
      if ui.messageScroll < (ui.messages.length : Int) - 1 then
        { ui with messageScroll := ui.messageScroll + 1 }
      else ui
  else if key = "enter" ∨ key = " " then
    if ui.activePane = Pane.TopicsPane ∧ 0 < ui.topics.length then
      let topic := ui.topics.getD ui.selectedTopic.toNat ""
      { ui with subscribedTopics :=
          mapSet ui.subscribedTopics topic (!(mapGet ui.subscribedTopics topic)) }
    else ui
  else if key = "r" then
    { ui with messages := [], messageScroll := 0 }
  else ui

/-- Sorting used by `SetTopics` (Go `sort.Strings`): lexicographic ascending
order on strings. -/
def sortStrings (l : List String) : List String :=
  List.insertionSort (· ≤ ·) l

/-- src/ui.go `(*UI).SetTopics`: sort the incoming topic list, install it,
clamp `selectedTopic` to the new length (down to the last index if it now
overshoots, up to 0 if negative), and reset `topicScroll` to 0. -/
def setTopics (ui : UI) (topics : List String) : UI :=
  let topics := sortStrings topics
  let sel0 := ui.selectedTopic
  let sel1 := if sel0 ≥ (topics.length : Int) then (topics.length : Int) - 1 else sel0
  let sel := if sel1 < 0 then 0 else sel1
  { ui with topics := topics, selectedTopic := sel, topicScroll := 0 }

/-- src/ui.go `(*UI).AddMessage`: append the message, then auto-follow: if the
messages pane has focus or `messageScroll >= len(messages) - 5` (length taken
after the append), move the cursor to the new last index. -/
def addMessage (ui : UI) (topic payload : String) (timestamp : Nat) : UI :=
  let messages := ui.messages ++ [⟨topic, payload, timestamp⟩]
  if ui.activePane = Pane.MessagesPane ∨ ui.messageScroll ≥ (messages.length : Int) - 5 then
    let ms := (messages.length : Int) - 1
    { ui with messages := messages, messageScroll := if ms < 0 then 0 else ms }
  else
    { ui with messages := messages }

/-- src/ui.go `(*UI).SetError`. -/
def setError (ui : UI) (e : String) : UI :=
  { ui with error := e }

/-- src/ui.go `(*UI).GetSubscribedTopics`, as a function of the
`subscribedTopics` map it reads: the topics whose desired flag is true. -/
def getSubscribedTopics (subscribedTopics : List (String × Bool)) : List String :=
  (subscribedTopics.filter fun p => p.2).map fun p => p.1

/-- src/ui.go `(*UI).updateTopicScroll`: the render-path scroll recomputation.
With an empty catalog the scroll resets to 0; otherwise `selectedTopic` is
clamped into the catalog, the scroll is moved to keep the selection visible,
and finally the scroll is clamped into `[0, max(0, len(topics) - visibleLines)]`. -/
def updateTopicScroll (ui : UI) (visibleLines : Int) : UI :=
  if ui.topics.length = 0 then
    { ui with topicScroll := 0 }
  else
    let sel0 := ui.selectedTopic
    let sel1 := if sel0 < 0 then 0 else sel0
    let sel := if sel1 ≥ (ui.topics.length : Int) then (ui.topics.length : Int) - 1 else sel1
    let sc0 := ui.topicScroll
    let sc1 :=
      if sel < sc0 then sel
      else if sel ≥ sc0 + visibleLines then sel - visibleLines + 1
      else sc0
    let sc2 := if sc1 < 0 then 0 else sc1
    let maxScroll0 := (ui.topics.length : Int) - visibleLines
    let maxScroll := if maxScroll0 < 0 then 0 else maxScroll0
    let sc := if sc2 > maxScroll then maxScroll else sc2
    { ui with selectedTopic := sel, topicScroll := sc }

/-- A subscribe or unsubscribe request issued against the gateway
(src/main.go `subscribeToTopicCmd` / `unsubscribeFromTopicCmd`). -/
inductive SubAction where
  | subscribe (topic : String)
  | unsubscribe (topic : String)
deriving DecidableEq

/-- src/main.go `(*App).handleSubscriptionChanges`: build membership maps of
both lists, subscribe to each distinct topic in `newSubscribed` absent from
`oldSubscribed`, and unsubscribe from each distinct topic in `oldSubscribed`
absent from `newSubscribed`.  Go map iteration order is unspecified; the list
order here is one linearization of it. -/
def handleSubscriptionChanges (oldSubscribed newSubscribed : List String) : List SubAction :=
  ((newSubscribed.dedup.filter fun t => decide (t ∉ oldSubscribed)).map SubAction.subscribe)
    ++ ((oldSubscribed.dedup.filter fun t => decide (t ∉ newSubscribed)).map SubAction.unsubscribe)

/-- The inbound events of the core loop that App.Update dispatches on
(src/mqtt.go message types, src/main.go `(*App).Update`).  Window sizes and
timestamps keep their payloads; the opaque Go `error` values become strings. -/
inductive Msg where
  | windowSize (w h : Int)
  | key (k : String)
  | connected
  | topicsDiscovered (topics : List String)
  | message (topic payload : String) (timestamp : Nat)
  | mqttError (e : String)

/-- src/main.go `(*App).Update`, restricted to the UI state and the
subscribe/unsubscribe commands it emits (`MQTTConnectedMsg` additionally emits
a topic-discovery command, which is neither a subscribe nor an unsubscribe and
so is not tracked here; the quit keys return before the reconciliation block,
emitting only `tea.Quit`).  `isConnected` is the value of
`a.mqtt != nil && a.mqtt.IsConnected()` at this event.  Each branch performs
the message-specific UI mutation of the Go switch, then snapshots
`GetSubscribedTopics` before and after `ui.Update(msg)` and, when connected,
diffs the two snapshots with `handleSubscriptionChanges`. -/
def appUpdate (isConnected : Bool) (ui : UI) (msg : Msg) : UI × List SubAction :=
  match msg with
  | .windowSize w h => ({ ui with width := w, height := h }, [])
  | .key k =>
      if k = "ctrl+c" ∨ k = "q" then (ui, [])
      else
        let oldSub := getSubscribedTopics ui.subscribedTopics
        let ui2 := handleKeyPress ui k
        (ui2,
          if isConnected then
            handleSubscriptionChanges oldSub (getSubscribedTopics ui2.subscribedTopics)
          else [])
  | .connected =>
      let oldSub := getSubscribedTopics ui.subscribedTopics
      (ui,
        if isConnected then
          handleSubscriptionChanges oldSub (getSubscribedTopics ui.subscribedTopics)
        else [])
  | .topicsDiscovered ts =>
      let ui1 := setTopics ui ts
      let oldSub := getSubscribedTopics ui1.subscribedTopics
      (ui1,
        if isConnected then
          handleSubscriptionChanges oldSub (getSubscribedTopics ui1.subscribedTopics)
        else [])
  | .message t p time =>
      let ui1 := addMessage ui t p time
      let oldSub := getSubscribedTopics ui1.subscribedTopics
      (ui1,
        if isConnected then
          handleSubscriptionChanges oldSub (getSubscribedTopics ui1.subscribedTopics)
        else [])
  | .mqttError e =>
      let ui1 := setError ui ("MQTT Error: " ++ e)
      let oldSub := getSubscribedTopics ui1.subscribedTopics
      (ui1,
        if isConnected then
          handleSubscriptionChanges oldSub (getSubscribedTopics ui1.subscribedTopics)
        else [])

/-- src/mqtt.go `discoveryHandler`: record a topic in the discovered-topics
map (`m.discoveredTopics[topic] = true`).  The map is modelled by its key
list in insertion order; re-observing a known topic is a no-op. -/
def observe (reg : List String) (topic : String) : List String :=
  if topic ∈ reg then reg else reg ++ [topic]

/-- The registry contents after a whole sequence of discovery callbacks. -/
def observeAll (reg : List String) (topics : List String) : List String :=
  topics.foldl observe reg

/-- The topic-pane operations quantified over by the scroll-clamp invariant:
`MoveUp`/`MoveDown` are the "up"/"down" key presses, `SetTopics` is a catalog
replacement. -/
inductive TopicOp where
  | moveUp
  | moveDown
  | setCatalog (topics : List String)

/-- One topic-pane operation. -/
def applyTopicOp (ui : UI) (op : TopicOp) : UI :=
  match op with
  | .moveUp => handleKeyPress ui "up"
  | .moveDown => handleKeyPress ui "down"
  | .setCatalog ts => setTopics ui ts

/-- A sequence of topic-pane operations, each followed by the render-path
scroll recomputation `updateTopicScroll` with visible capacity `v`
(src/ui.go `renderTopicsPane` calls it on every render). -/
def applyOps (ui : UI) (ops : List TopicOp) (v : Int) : UI :=
  ops.foldl (fun u op => updateTopicScroll (applyTopicOp u op) v) ui

/-! Helper lemmas about the map model and the subscription diff. -/

theorem mapGet_mapSet_same (m : List (String × Bool)) (t : String) (b : Bool) :
    mapGet (mapSet m t b) t = b := by
  induction m with
  | nil => simp [mapSet, mapGet]
  | cons p rest ih =>
      by_cases h : p.1 = t
      · simp [mapSet, mapGet, h]
      · simp [mapSet, mapGet, h, ih]

theorem mapGet_of_forall_ne (m : List (String × Bool)) (t : String)
    (h : ∀ p ∈ m, p.1 ≠ t) : mapGet m t = false := by
  induction m with
  | nil => rfl
  | cons p rest ih =>
      have hp : p.1 ≠ t := h p (by simp)
      simp only [mapGet, if_neg hp]
      exact ih fun q hq => h q (by simp [hq])

theorem mem_keys_of_mem_getSubscribedTopics (m : List (String × Bool)) (t : String)
    (h : t ∈ getSubscribedTopics m) : t ∈ m.map Prod.fst := by
  simp only [getSubscribedTopics, List.mem_map, List.mem_filter] at h
  obtain ⟨p, ⟨hpm, _⟩, hpt⟩ := h
  exact List.mem_map.mpr ⟨p, hpm, hpt⟩

theorem mem_getSubscribedTopics (m : List (String × Bool)) (t : String) (hk : keysNodup m) :
    t ∈ getSubscribedTopics m ↔ mapGet m t = true := by
  induction m with
  | nil => simp [getSubscribedTopics, mapGet]
  | cons p rest ih =>
      obtain ⟨hp, hrest⟩ : p.1 ∉ rest.map Prod.fst ∧ keysNodup rest := by
        simpa [keysNodup] using hk
      by_cases h : p.1 = t
      · subst h
        by_cases hb : p.2 = true
        · simp [getSubscribedTopics, mapGet, hb]
        · have hnot : p.1 ∉ getSubscribedTopics rest := fun hmem =>
            hp (mem_keys_of_mem_getSubscribedTopics rest p.1 hmem)
          simp only [getSubscribedTopics, List.filter_cons, hb, if_false, Bool.false_eq_true,
            mapGet, if_pos rfl]
          exact iff_of_false hnot (by simp [hb])
      · by_cases hb : p.2 = true
        · simp only [getSubscribedTopics, List.filter_cons, hb, if_true, List.map_cons,
            List.mem_cons, mapGet, if_neg h]
          rw [← getSubscribedTopics, ih hrest]
          simp only [or_iff_right_iff_imp]
          intro he
          exact absurd he.symm h
        · simp only [getSubscribedTopics, List.filter_cons, hb, if_false, Bool.false_eq_true,
            mapGet, if_neg h]
          exact ih hrest

theorem subscribe_mem_handleSubscriptionChanges
    (oldSubscribed newSubscribed : List String) (t : String) :
    SubAction.subscribe t ∈ handleSubscriptionChanges oldSubscribed newSubscribed
      ↔ t ∈ newSubscribed ∧ t ∉ oldSubscribed := by
  simp [handleSubscriptionChanges]

theorem unsubscribe_mem_handleSubscriptionChanges
    (oldSubscribed newSubscribed : List String) (t : String) :
    SubAction.unsubscribe t ∈ handleSubscriptionChanges oldSubscribed newSubscribed
      ↔ t ∈ oldSubscribed ∧ t ∉ newSubscribed := by
  simp [handleSubscriptionChanges]

theorem handleSubscriptionChanges_self (l : List String) :
    handleSubscriptionChanges l l = [] := by
  unfold handleSubscriptionChanges
  have h : (l.dedup.filter fun t => decide (t ∉ l)) = [] := by
    rw [List.filter_eq_nil_iff]
    intro a ha
    simp [List.mem_dedup.mp ha]
  simp [h]

/-! The claims. -/

/-- C1 (confirmed).  Reconciliation minimality: `handleSubscriptionChanges`
issues a subscribe action exactly for each topic whose desired flag is true
and that is absent from the applied list, and an unsubscribe action exactly
for each applied topic whose desired flag is not true; on
`desired = A:true, B:false, C:true` and `applied = B, C` the computed actions
are exactly `subscribe A` and `unsubscribe B`, and no action touches `C`. -/
theorem reconciliation_minimality :
    (∀ (applied : List String) (desired : List (String × Bool)) (t : String),
        keysNodup desired →
        (SubAction.subscribe t ∈ handleSubscriptionChanges applied (getSubscribedTopics desired)
            ↔ mapGet desired t = true ∧ t ∉ applied) ∧
        (SubAction.unsubscribe t ∈ handleSubscriptionChanges applied (getSubscribedTopics desired)
            ↔ t ∈ applied ∧ ¬ mapGet desired t = true)) ∧
    handleSubscriptionChanges ["B", "C"]
        (getSubscribedTopics [("A", true), ("B", false), ("C", true)])
      = [SubAction.subscribe "A", SubAction.unsubscribe "B"] := by
  constructor
  · intro applied desired t hk
    constructor
    · rw [subscribe_mem_handleSubscriptionChanges, mem_getSubscribedTopics _ _ hk]
    · rw [unsubscribe_mem_handleSubscriptionChanges, mem_getSubscribedTopics _ _ hk]
  · decide

/-- Witness for C1 at the concrete instance of the claim. -/
theorem reconciliation_minimality_witness :
    SubAction.subscribe "A" ∈ handleSubscriptionChanges ["B", "C"]
        (getSubscribedTopics [("A", true), ("B", false), ("C", true)]) :=
  ((reconciliation_minimality.1 ["B", "C"] [("A", true), ("B", false), ("C", true)] "A"
      (by decide)).1).mpr (by decide)

/-- A UI state whose desired subscription set marks topic `A` as wanted, as it
is after the user toggles `A` (the flag stays true whether or not the
subscribe request later fails, since the failure path only posts an
`MQTTErrorMsg`). -/
def uiDesiredA : UI :=
  { NewUI with topics := ["A"], subscribedTopics := [("A", true)] }

/-- C2 counterexample.  After `subscribe A` fails, the desired flag for `A` is
still true, yet the next reconciliation pass (here: processing the
`MQTTErrorMsg` the failed command returned, while connected) issues no
subscribe action at all — the claim says it re-issues `subscribe A`. -/
theorem retry_on_failure_counterexample :
    mapGet uiDesiredA.subscribedTopics "A" = true ∧
    (appUpdate true uiDesiredA (Msg.mqttError "failed to subscribe to A: x")).2 = [] ∧
    SubAction.subscribe "A" ∉
      (appUpdate true uiDesiredA (Msg.mqttError "failed to subscribe to A: x")).2 := by
  decide

/-- C2 amended.  If `subscribe A` fails, the desired flag for `A` remains true
(the error event only sets the error string), but the code keeps no applied
set: each pass diffs the desired snapshots taken before and after the same
event, so a subsequent pass with the same desired set issues no actions and
`subscribe A` is not re-issued. -/
theorem retry_on_failure_amended (isConnected : Bool) (ui : UI) (e : String) :
    (appUpdate isConnected ui (Msg.mqttError e)).1.subscribedTopics = ui.subscribedTopics ∧
    (appUpdate isConnected ui (Msg.mqttError e)).2 = [] := by
  refine ⟨rfl, ?_⟩
  cases isConnected <;> simp [appUpdate, setError, handleSubscriptionChanges_self]

/-- C9 counterexample.  With topic `A` desired (toggled while disconnected),
processing the `MQTTConnectedMsg` that reports connectivity (re)established
issues no subscribe action at all — the claim says a full reconciliation runs
and issues `subscribe A`. -/
theorem disconnected_reconciliation_counterexample :
    mapGet uiDesiredA.subscribedTopics "A" = true ∧
    (appUpdate true uiDesiredA Msg.connected).2 = [] ∧
    SubAction.subscribe "A" ∉ (appUpdate true uiDesiredA Msg.connected).2 := by
  decide

/-- C9 amended.  While the gateway reports itself disconnected no subscribe or
unsubscribe action is issued and toggles still accumulate in the desired set;
but no reconciliation against an empty applied set happens on (re)connection:
processing `MQTTConnectedMsg` diffs the unchanged desired snapshot against
itself and issues no actions, so topics desired while disconnected are never
subscribed by the connection event. -/
theorem disconnected_reconciliation_amended :
    (∀ (ui : UI) (msg : Msg), (appUpdate false ui msg).2 = []) ∧
    (∀ (ui : UI) (k : String),
        (appUpdate false ui (Msg.key k)).1 =
          if k = "ctrl+c" ∨ k = "q" then ui else handleKeyPress ui k) ∧
    (∀ ui : UI, (appUpdate true ui Msg.connected).2 = []) := by
  refine ⟨?_, ?_, ?_⟩
  · intro ui msg
    cases msg
    case key k => simp only [appUpdate]; split <;> rfl
    all_goals rfl
  · intro ui k
    by_cases h : k = "ctrl+c" ∨ k = "q" <;> simp [appUpdate, h]
  · intro ui
    simp [appUpdate, handleSubscriptionChanges_self]

/-- A UI state with six buffered messages and the message cursor at index 1,
the first of the last five positions of the current tail (index 5). -/
def uiSixMessages : UI :=
  { NewUI with messages := List.replicate 6 ⟨"t", "p", 0⟩, messageScroll := 1 }

/-- C3 counterexample.  With 6 buffered messages the previous tail is index 5
and its last 5 positions are indices 1..5; with the cursor at 1 and the topics
pane focused, appending a message leaves the cursor at 1 instead of advancing
it to the new tail. -/
theorem auto_follow_counterexample :
    uiSixMessages.activePane ≠ Pane.MessagesPane ∧
    uiSixMessages.messages.length = 6 ∧
    uiSixMessages.messageScroll = 1 ∧
    (6 : Int) - 5 ≤ uiSixMessages.messageScroll ∧
    (addMessage uiSixMessages "t2" "p2" 7).messageScroll = 1 ∧
    (addMessage uiSixMessages "t2" "p2" 7).messageScroll ≠
      ((addMessage uiSixMessages "t2" "p2" 7).messages.length : Int) - 1 := by
  decide

/-- C3 amended.  Appending a message while the messages pane has focus, or
while the cursor is at least `prevLen - 4` — the last 4 positions of the
previous tail, equivalently the last 5 positions of the stream including the
just-appended message, which is how src/ui.go line 467 computes the margin
after the append — moves the cursor to the new last index `prevLen`; appending
while the cursor is scrolled further back leaves the cursor unchanged. -/
theorem auto_follow_amended (ui : UI) (topic payload : String) (ts : Nat) :
    ((ui.activePane = Pane.MessagesPane ∨
        ui.messageScroll ≥ (ui.messages.length : Int) + 1 - 5) →
      (addMessage ui topic payload ts).messageScroll = (ui.messages.length : Int)) ∧
    ((ui.activePane ≠ Pane.MessagesPane ∧
        ui.messageScroll < (ui.messages.length : Int) + 1 - 5) →
      (addMessage ui topic payload ts).messageScroll = ui.messageScroll) := by
  unfold addMessage
  constructor
  · intro h
    have hc : ui.activePane = Pane.MessagesPane ∨
        ui.messageScroll ≥ (((ui.messages ++ [Message.mk topic payload ts]).length : Nat) : Int) - 5 := by
      rcases h with h | h
      · exact Or.inl h
      · refine Or.inr ?_
        simp only [List.length_append, List.length_cons, List.length_nil]
        push_cast
        omega
    rw [if_pos hc]
    simp only [List.length_append, List.length_cons, List.length_nil]
    push_cast
    split <;> omega
  · rintro ⟨h1, h2⟩
    have hc : ¬ (ui.activePane = Pane.MessagesPane ∨
        ui.messageScroll ≥ (((ui.messages ++ [Message.mk topic payload ts]).length : Nat) : Int) - 5) := by
      push_neg
      refine ⟨h1, ?_⟩
      simp only [List.length_append, List.length_cons, List.length_nil]
      push_cast
      omega
    rw [if_neg hc]

/-- Witness for C3 amended: one append inside the margin advances the cursor
to the new tail, one append outside it leaves the cursor unchanged. -/
theorem auto_follow_amended_witness :
    (addMessage { NewUI with messages := List.replicate 6 ⟨"t", "p", 0⟩, messageScroll := 2 }
        "t2" "p2" 7).messageScroll = 6 ∧
    (addMessage uiSixMessages "t2" "p2" 7).messageScroll = 1 := by
  constructor
  · have h := (auto_follow_amended
      { NewUI with messages := List.replicate 6 ⟨"t", "p", 0⟩, messageScroll := 2 }
      "t2" "p2" 7).1 (Or.inr (by decide))
    simpa using h
  · have h := (auto_follow_amended uiSixMessages "t2" "p2" 7).2 ⟨by decide, by decide⟩
    simpa using h

theorem updateTopicScroll_topics (ui : UI) (v : Int) :
    (updateTopicScroll ui v).topics = ui.topics := by
  unfold updateTopicScroll; split <;> rfl

theorem updateTopicScroll_inv (ui : UI) (v : Int) :
    0 ≤ (updateTopicScroll ui v).topicScroll ∧
    (updateTopicScroll ui v).topicScroll ≤
      max 0 (((updateTopicScroll ui v).topics.length : Int) - v) := by
  rw [updateTopicScroll_topics]
  unfold updateTopicScroll
  split_ifs <;> (first | (simp_all; omega) | simp_all)

theorem applyOps_inv (v : Int) (ops : List TopicOp) (ui : UI)
    (h : 0 ≤ ui.topicScroll ∧ ui.topicScroll ≤ max 0 ((ui.topics.length : Int) - v)) :
    0 ≤ (applyOps ui ops v).topicScroll ∧
    (applyOps ui ops v).topicScroll ≤
      max 0 (((applyOps ui ops v).topics.length : Int) - v) := by
  induction ops generalizing ui with
  | nil => exact h
  | cons op rest ih =>
      have hstep : applyOps ui (op :: rest) v
          = applyOps (updateTopicScroll (applyTopicOp ui op) v) rest v := rfl
      rw [hstep]
      exact ih _ (updateTopicScroll_inv (applyTopicOp ui op) v)

/-- C4 (confirmed).  Scroll clamp invariant: starting from the initial UI
state, after any sequence of MoveUp, MoveDown and SetTopics operations, each
followed by the render-path scroll recomputation with visible capacity `v`,
the topic-pane scroll cursor lies in `[0, max 0 (N - v)]` for the current
catalog length `N`. -/
theorem scroll_clamp_invariant (ops : List TopicOp) (v : Int) :
    0 ≤ (applyOps NewUI ops v).topicScroll ∧
    (applyOps NewUI ops v).topicScroll ≤
      max 0 (((applyOps NewUI ops v).topics.length : Int) - v) :=
  applyOps_inv v ops NewUI ⟨le_refl 0, le_max_left 0 _⟩

/-- C5 (confirmed).  With the messages pane focused and the message cursor in
`[0, max 0 (L - 1)]` for stream length `L`, MoveUp decrements and MoveDown
increments the cursor clamped to that interval (which is `[0, L - 1]` for a
non-empty stream and `{0}` for an empty one). -/
theorem message_pane_navigation (ui : UI)
    (hp : ui.activePane = Pane.MessagesPane)
    (h0 : 0 ≤ ui.messageScroll)
    (h1 : ui.messageScroll ≤ max 0 ((ui.messages.length : Int) - 1)) :
    (handleKeyPress ui "up").messageScroll = max 0 (ui.messageScroll - 1) ∧
    (handleKeyPress ui "down").messageScroll
      = min (ui.messageScroll + 1) (max 0 ((ui.messages.length : Int) - 1)) ∧
    (0 ≤ (handleKeyPress ui "up").messageScroll ∧
      (handleKeyPress ui "up").messageScroll ≤ max 0 ((ui.messages.length : Int) - 1)) ∧
    (0 ≤ (handleKeyPress ui "down").messageScroll ∧
      (handleKeyPress ui "down").messageScroll ≤ max 0 ((ui.messages.length : Int) - 1)) := by
  have hup : (handleKeyPress ui "up").messageScroll
      = if ui.messageScroll > 0 then ui.messageScroll - 1 else ui.messageScroll := by
    simp [handleKeyPress, hp]
    split <;> rfl
  have hdown : (handleKeyPress ui "down").messageScroll
      = if ui.messageScroll < (ui.messages.length : Int) - 1 then ui.messageScroll + 1
        else ui.messageScroll := by
    simp [handleKeyPress, hp]
    split <;> rfl
  rw [hup, hdown]
  split_ifs <;> omega

/-- A UI state with the messages pane focused, three buffered messages, and
the message cursor at 1. -/
def uiThreeMessages : UI :=
  { NewUI with
      activePane := Pane.MessagesPane
      messages := List.replicate 3 ⟨"t", "p", 0⟩
      messageScroll := 1 }

/-- Witness for C5 on a three-message stream with the cursor at 1. -/
theorem message_pane_navigation_witness :
    (handleKeyPress uiThreeMessages "up").messageScroll = max 0 ((1 : Int) - 1) :=
  (message_pane_navigation uiThreeMessages rfl (by decide) (by decide)).1

/-- C6 (confirmed).  `SetTopics` resets the topic scroll cursor to 0, stores
the sorted catalog, and re-clamps the selection: to 0 when the new catalog is
empty, to the new last index when the catalog shrank below the selection, and
leaves an in-range selection unchanged. -/
theorem set_topics_reclamp (ui : UI) (ts : List String) :
    (setTopics ui ts).topicScroll = 0 ∧
    (setTopics ui ts).topics = sortStrings ts ∧
    (ts.length = 0 → (setTopics ui ts).selectedTopic = 0) ∧
    (ui.selectedTopic ≥ (ts.length : Int) ∧ 0 < ts.length →
      (setTopics ui ts).selectedTopic = (ts.length : Int) - 1) ∧
    (0 ≤ ui.selectedTopic ∧ ui.selectedTopic < (ts.length : Int) →
      (setTopics ui ts).selectedTopic = ui.selectedTopic) := by
  have hlen : ((sortStrings ts).length : Int) = (ts.length : Int) := by
    simp [sortStrings]
  refine ⟨rfl, rfl, ?_, ?_, ?_⟩ <;>
    · intro h
      unfold setTopics
      simp only [hlen]
      split_ifs <;> simp_all <;> omega

/-- Witness for C6: a catalog that shrank to two entries below a selection of
5 moves the selection to the new last index 1. -/
theorem set_topics_reclamp_witness :
    (setTopics { NewUI with selectedTopic := 5 } ["b", "a"]).selectedTopic = 1 := by
  have h := (set_topics_reclamp { NewUI with selectedTopic := 5 } ["b", "a"]).2.2.2.1
    ⟨by decide, by decide⟩
  simpa using h

/-- The enter/space branch of `handleKeyPress` (src/ui.go lines 152-156):
flip the desired flag of the topic at the current selection. -/
def toggleSelected (ui : UI) : UI :=
  let topic := ui.topics.getD ui.selectedTopic.toNat ""
  { ui with subscribedTopics :=
      mapSet ui.subscribedTopics topic (!(mapGet ui.subscribedTopics topic)) }

theorem handleKeyPress_enter (ui : UI) (hp : ui.activePane = Pane.TopicsPane)
    (hn : 0 < ui.topics.length) :
    handleKeyPress ui "enter" = toggleSelected ui := by
  simp [handleKeyPress, toggleSelected, hp, hn]

/-- A UI state with a one-topic catalog and no subscription entries. -/
def uiOneTopic : UI :=
  { NewUI with topics := ["a"] }

/-- C7 (confirmed).  With the topics pane focused and a non-empty catalog,
toggling the subscription twice at the same selection restores the desired
flag of the selected topic to its prior value. -/
theorem toggle_subscription_involutive (ui : UI)
    (hp : ui.activePane = Pane.TopicsPane) (hn : 0 < ui.topics.length) :
    mapGet (handleKeyPress (handleKeyPress ui "enter") "enter").subscribedTopics
        (ui.topics.getD ui.selectedTopic.toNat "")
      = mapGet ui.subscribedTopics (ui.topics.getD ui.selectedTopic.toNat "") := by
  rw [handleKeyPress_enter ui hp hn]
  rw [handleKeyPress_enter _ (by simpa [toggleSelected] using hp)
    (by simpa [toggleSelected] using hn)]
  simp [toggleSelected, mapGet_mapSet_same]

/-- Witness for C7 on the one-topic catalog. -/
theorem toggle_subscription_involutive_witness :
    mapGet (handleKeyPress (handleKeyPress uiOneTopic "enter") "enter").subscribedTopics
        (uiOneTopic.topics.getD uiOneTopic.selectedTopic.toNat "")
      = mapGet uiOneTopic.subscribedTopics
          (uiOneTopic.topics.getD uiOneTopic.selectedTopic.toNat "") :=
  toggle_subscription_involutive uiOneTopic rfl (by decide)

/-- C10 (confirmed).  With the topics pane focused, a non-empty catalog, and
no entry for the selected topic in the subscription map, the first toggle
sets the desired flag to true: an absent entry reads as false (Go map zero
value), so the first toggle on any topic subscribes it. -/
theorem first_toggle_subscribes (ui : UI)
    (hp : ui.activePane = Pane.TopicsPane) (hn : 0 < ui.topics.length)
    (habsent : ∀ p ∈ ui.subscribedTopics, p.1 ≠ ui.topics.getD ui.selectedTopic.toNat "") :
    mapGet (handleKeyPress ui "enter").subscribedTopics
        (ui.topics.getD ui.selectedTopic.toNat "") = true := by
  rw [handleKeyPress_enter ui hp hn]
  simp only [toggleSelected]
  rw [mapGet_mapSet_same, mapGet_of_forall_ne ui.subscribedTopics _ habsent]
  rfl

/-- Witness for C10 on the one-topic catalog with an empty subscription map. -/
theorem first_toggle_subscribes_witness :
    mapGet (handleKeyPress uiOneTopic "enter").subscribedTopics
        (uiOneTopic.topics.getD uiOneTopic.selectedTopic.toNat "") = true :=
  first_toggle_subscribes uiOneTopic rfl (by decide) (by decide)

theorem observe_mem (reg : List String) (topic t : String) :
    t ∈ observe reg topic ↔ t ∈ reg ∨ t = topic := by
  unfold observe
  split_ifs with h
  · constructor
    · exact Or.inl
    · rintro (h' | rfl)
      · exact h'
      · exact h
  · simp

theorem observeAll_mem (obs : List String) (reg : List String) (t : String) :
    t ∈ observeAll reg obs ↔ t ∈ reg ∨ t ∈ obs := by
  induction obs generalizing reg with
  | nil => simp [observeAll]
  | cons o rest ih =>
      have hstep : observeAll reg (o :: rest) = observeAll (observe reg o) rest := rfl
      rw [hstep, ih, observe_mem]
      simp [or_assoc]

theorem observeAll_nodup (obs : List String) (reg : List String) (h : reg.Nodup) :
    (observeAll reg obs).Nodup := by
  induction obs generalizing reg with
  | nil => exact h
  | cons o rest ih =>
      have hstep : observeAll reg (o :: rest) = observeAll (observe reg o) rest := rfl
      rw [hstep]
      apply ih
      unfold observe
      split_ifs with hmem
      · exact h
      · simp [List.nodup_append, h, hmem]

/-- C8 (confirmed).  For every sequence of `observe` calls (topic
discoveries), the catalog the UI installs from the registry snapshot via
`SetTopics` contains each distinct observed topic exactly once, sorted
lexicographically ascending. -/
theorem registry_snapshot_sorted (ui : UI) (obs : List String) :
    List.Sorted (· ≤ ·) (setTopics ui (observeAll [] obs)).topics ∧
    (setTopics ui (observeAll [] obs)).topics.Nodup ∧
    (∀ t, t ∈ (setTopics ui (observeAll [] obs)).topics ↔ t ∈ obs) := by
  have htop : (setTopics ui (observeAll [] obs)).topics
      = sortStrings (observeAll [] obs) := rfl
  rw [htop]
  refine ⟨List.sorted_insertionSort _ _, ?_, ?_⟩
  · exact (List.perm_insertionSort _ _).nodup_iff.mpr (observeAll_nodup obs [] List.nodup_nil)
  · intro t
    rw [sortStrings, List.mem_insertionSort, observeAll_mem]
    simp

end Mqttui
